import Mathlib

/-!
# lxqt-qtplugin: platform theme provider and file dialog helper

A shallow embedding of `src/lxqtplatformtheme.cpp` and
`src/lxqtfiledialoghelper.cpp`.

* Member variables of `LXQtPlatformTheme` become the fields of a structure that
  is passed explicitly; a member function that writes members returns the new
  structure.
* Calls into the running application (`QApplication::setFont`, `qApp->setStyle`,
  ...) and calls on the dialog widget are recorded, in program order, in a list
  that the function returns.
* Toolkit code that is not part of this repository (value conversions of
  `QVariant`, `QFont::fromString`, the base class `QPlatformTheme`, the enum name
  table of `QToolBar::toolButtonStyle`, `QFileInfo`) is taken as a parameter,
  bundled in `Toolkit`.  The process environment (settings files, environment
  variables, the file system, live widgets) is bundled in `Env`.
-/

namespace LXQt

/-! ## Toolkit value types -/

/-- The kinds of `QVariant` this plugin builds or reads. -/
inductive QVariant where
  | invalid
  | bool (b : Bool)
  | int (i : Int)
  | string (str : String)
  | stringList (l : List String)
  deriving DecidableEq, Repr

/-- A font object of the toolkit (`QFont`), reduced to two of its attributes. -/
structure QFont where
  family : String
  pointSize : Nat
  deriving DecidableEq, Repr

/-- The enum `QPlatformTheme::ThemeHint`: the enumerators named in the `switch` of
`themeHint`, and `other` for every enumerator that only the `default:` label
catches (for instance `WheelScrollLines` of later toolkit versions). -/
inductive ThemeHint where
  | CursorFlashTime
  | KeyboardInputInterval
  | MouseDoubleClickInterval
  | StartDragDistance
  | StartDragTime
  | KeyboardAutoRepeatRate
  | PasswordMaskDelay
  | StartDragVelocity
  | TextCursorWidth
  | DropShadow
  | MaximumScrollBarDragDistance
  | ToolButtonStyle
  | ToolBarIconSize
  | ItemViewActivateItemOnSingleClick
  | SystemIconThemeName
  | SystemIconFallbackThemeName
  | IconThemeSearchPaths
  | StyleNames
  | WindowAutoPlacement
  | DialogButtonBoxLayout
  | DialogButtonBoxButtonsHaveIcons
  | UseFullScreenForPopupMenu
  | KeyboardScheme
  | UiEffects
  | SpellCheckUnderlineStyle
  | TabAllWidgets
  | IconPixmapSizes
  | PasswordMaskCharacter
  | DialogSnapToDefaultButton
  | ContextMenuOnMouseRelease
  | MousePressAndHoldInterval
  | MouseDoubleClickDistance
  | other (id : Nat)
  deriving DecidableEq, Repr

/-- The enum `QPlatformTheme::Font`: the two enumerators `font` compares with, and
`other` for the rest (`MenuFont`, `TitleBarFont`, ...). -/
inductive Font where
  | SystemFont
  | FixedFont
  | other (id : Nat)
  deriving DecidableEq, Repr

/-- Toolkit code used by the theme provider that is not part of the repository. -/
structure Toolkit where
  /-- The conversion `QVariant::toString`. -/
  variantToString : QVariant → String
  /-- The conversion `QVariant::toBool`. -/
  variantToBool : QVariant → Bool
  /-- The conversion `QVariant::toByteArray` followed by `constData()`. -/
  variantToByteArray : QVariant → String
  /-- The key table of the enumerator of `QToolBar`'s property `toolButtonStyle`. -/
  toolButtonStyleKeys : List (String × Int)
  /-- The enumerator `Qt::ToolButtonTextBesideIcon`. -/
  ToolButtonTextBesideIcon : Int
  /-- The enumerator `QPlatformTheme::X11KeyboardScheme`. -/
  X11KeyboardScheme : Int
  /-- The member function `QFont::fromString`: from the receiver and the descriptor to the
  success flag and the receiver afterwards. -/
  fontFromString : QFont → String → Bool × QFont
  /-- The base class implementation `QPlatformTheme::themeHint`. -/
  baseThemeHint : ThemeHint → QVariant
  /-- The base class implementation `QPlatformTheme::font`; `none` is the null pointer. -/
  baseFont : Font → Option QFont
  /-- The result of `QFileInfo::absoluteFilePath` for the file info built from a path. -/
  absoluteFilePath : String → String

/-! ## The layered settings store -/

/-- The files behind `QSettings(QSettings::UserScope, "lxqt", "lxqt")`: the user file
`~/.config/lxqt/lxqt.conf` and the system-wide file `/etc/xdg/lxqt/lxqt.conf` that is read
"as a fallback if a key is missing from the user config file" (comment in `loadSettings`),
each as a list of full keys with their values, and the path that `fileName()` gives. -/
structure SettingsStore where
  fileName : String
  userFile : List (String × QVariant)
  systemFile : List (String × QVariant)

/-- Modelled from the spec: the lookup of `QSettings`, which is toolkit code, as the "layered
settings store" that "checks a user-specific file first and falls back to a system-wide file
for any key the user file omits". -/
def SettingsStore.find (store : SettingsStore) (fullKey : String) : Option QVariant :=
  match store.userFile.lookup fullKey with
  | some v => some v
  | none => store.systemFile.lookup fullKey

/-- A settings object: the files it reads and the groups opened by `beginGroup`. -/
structure QSettings where
  store : SettingsStore
  group : List String

/-- The constructor call `QSettings settings(QSettings::UserScope, "lxqt", "lxqt")`: no
group is open. -/
def QSettings.create (store : SettingsStore) : QSettings :=
  { store := store, group := [] }

/-- The key as it is looked up: the open groups, then the key, joined by `/`. -/
def QSettings.fullKey (settings : QSettings) (key : String) : String :=
  settings.group.foldr (fun g rest => g ++ "/" ++ rest) key

/-- The call `settings.value(key, defaultValue)`; the call `settings.value(key)` has the
invalid variant `QVariant()` as its default value. -/
def QSettings.value (settings : QSettings) (key : String) (defaultValue : QVariant) :
    QVariant :=
  match settings.store.find (settings.fullKey key) with
  | some v => v
  | none => defaultValue

/-- The call `settings.beginGroup(g)`. -/
def QSettings.beginGroup (settings : QSettings) (g : String) : QSettings :=
  { settings with group := settings.group ++ [g] }

/-- Modelled from the spec: the call `QMetaEnum::keyToValue(key)`, which is toolkit code, as
the "enum-name-to-value table" lookup of a name; the result for an "unmapped/unknown name" is
the `-1` that `loadSettings` tests for. -/
def keyToValue (table : List (String × Int)) (key : String) : Int :=
  match table.lookup key with
  | some v => v
  | none => -1

/-! ## Environment and provider state -/

/-- What the process sees outside the provider object. -/
structure Env where
  /-- The settings files as they are on disk now. -/
  store : SettingsStore
  /-- The environment variable `XDG_DATA_DIRS`; `none` when unset. -/
  xdgDataDirs : Option String
  /-- The result of `QDir::homePath()`. -/
  homePath : String
  /-- Whether a path names an existing directory (`QFileInfo::isDir`). -/
  isDir : String → Bool
  /-- The result of `QApplication::allWidgets()`. -/
  allWidgets : List Nat

/-- The data members of `LXQtPlatformTheme`, with the types that their uses in
`lxqtplatformtheme.cpp` fix; the enum `Qt::ToolButtonStyle` is kept as the integer that
`static_cast<Qt::ToolButtonStyle>(value)` stores. -/
structure LXQtPlatformTheme where
  settingsFile_ : String
  iconTheme_ : String
  toolButtonStyle_ : Int
  singleClickActivate_ : Bool
  style_ : String
  fontStr_ : String
  font_ : QFont
  fixedFontStr_ : String
  fixedFont_ : QFont
  doubleClickInterval_ : QVariant
  wheelScrollLines_ : QVariant
  cursorFlashTime_ : QVariant
  /-- The paths watched by `settingsWatcher_`; `none` is the null pointer. -/
  settingsWatcher_ : Option (List String)
  deriving DecidableEq, Repr

/-- A call into the running application, as recorded in the call log. -/
inductive AppCall where
  /-- The call `QApplication::setFont(font)`. -/
  | setFont (font : QFont)
  /-- The call `qApp->setStyle(style)`. -/
  | setStyle (style : String)
  /-- The call `QIconLoader::instance()->updateSystemTheme()`. -/
  | updateSystemTheme
  /-- The call `QApplication::sendEvent(widget, &event)` with a `QEvent::ThemeChange` event. -/
  | sendThemeChange (widget : Nat)
  deriving DecidableEq, Repr

/-! ## `lxqtplatformtheme.cpp` -/

/-- The member function `LXQtPlatformTheme::loadSettings`. -/
def loadSettings (tk : Toolkit) (env : Env) (self : LXQtPlatformTheme) :
    LXQtPlatformTheme × List AppCall :=
  let settings := QSettings.create env.store
  let settingsFile_ := settings.store.fileName
  -- icon theme
  let iconTheme_ := tk.variantToString (settings.value "icon_theme" (QVariant.string "oxygen"))
  -- convert toolbar style name to value
  let tb_style := tk.variantToByteArray (settings.value "tool_button_style" QVariant.invalid)
  let value := keyToValue tk.toolButtonStyleKeys tb_style
  let toolButtonStyle_ := if value = -1 then tk.ToolButtonTextBesideIcon else value
  -- single click activation
  let singleClickActivate_ := tk.variantToBool (settings.value "single_click_activate" QVariant.invalid)
  -- load Qt settings
  let settings := settings.beginGroup "Qt"
  -- widget style
  let style_ := tk.variantToString (settings.value "style" (QVariant.string "fusion"))
  -- SystemFont
  let fontStr_ := tk.variantToString (settings.value "font" QVariant.invalid)
  let fontStep : QFont × List AppCall :=
    if fontStr_ ≠ "" then
      let parsed := tk.fontFromString self.font_ fontStr_
      (parsed.2, if parsed.1 = true then [AppCall.setFont parsed.2] else [])
    else (self.font_, [])
  let font_ := fontStep.1
  let calls := fontStep.2
  -- FixedFont
  let fixedFontStr_ := tk.variantToString (settings.value "fixedFont" QVariant.invalid)
  let fixedFont_ :=
    if fixedFontStr_ ≠ "" then (tk.fontFromString self.fixedFont_ fixedFontStr_).2
    else self.fixedFont_
  -- mouse
  let doubleClickInterval_ := settings.value "doubleClickInterval" QVariant.invalid
  let wheelScrollLines_ := settings.value "wheelScrollLines" QVariant.invalid
  -- keyboard
  let cursorFlashTime_ := settings.value "cursorFlashTime" QVariant.invalid
  -- `settings.endGroup()` closes the group of the local settings object, which is then destroyed
  ({ settingsFile_ := settingsFile_
     iconTheme_ := iconTheme_
     toolButtonStyle_ := toolButtonStyle_
     singleClickActivate_ := singleClickActivate_
     style_ := style_
     fontStr_ := fontStr_
     font_ := font_
     fixedFontStr_ := fixedFontStr_
     fixedFont_ := fixedFont_
     doubleClickInterval_ := doubleClickInterval_
     wheelScrollLines_ := wheelScrollLines_
     cursorFlashTime_ := cursorFlashTime_
     settingsWatcher_ := self.settingsWatcher_ }, calls)

/-- Modelled from the spec: the call `QString::split(sep)`, which is toolkit code, as the
division of a "colon-separated" text at every separator, empty parts kept. -/
def splitChars (sep : Char) : List Char → List (List Char)
  | [] => [[]]
  | c :: cs =>
    if c = sep then [] :: splitChars sep cs
    else
      match splitChars sep cs with
      | [] => [[c]]
      | part :: parts => (c :: part) :: parts

/-- The call `str.split(sep)` on a `QString`. -/
def split (str : String) (sep : Char) : List String :=
  (splitChars sep str.toList).map String.mk

/-- The `foreach` loop of `xdgIconThemePaths`: one pass of the body per directory. -/
def xdgIconThemePathsLoop (tk : Toolkit) (env : Env) (paths : List String) :
    List String → List String
  | [] => paths
  | xdgDir :: rest =>
    let xdgIconsDir := xdgDir ++ "/icons"
    if env.isDir xdgIconsDir then
      xdgIconThemePathsLoop tk env (paths ++ [tk.absoluteFilePath xdgIconsDir]) rest
    else
      xdgIconThemePathsLoop tk env paths rest

/-- The member function `LXQtPlatformTheme::xdgIconThemePaths`. -/
def xdgIconThemePaths (tk : Toolkit) (env : Env) : List String :=
  let paths : List String := []
  -- Add home directory first in search path
  let homeIconDir := env.homePath ++ "/.icons"
  let paths := if env.isDir homeIconDir then tk.absoluteFilePath homeIconDir :: paths else paths
  -- qgetenv gives an empty byte array for an unset variable
  let xdgDirString := env.xdgDataDirs.getD ""
  let xdgDirString :=
    if xdgDirString = "" then "/usr/local/share/:/usr/share/" else xdgDirString
  xdgIconThemePathsLoop tk env paths (split xdgDirString ':')

/-- The member function `LXQtPlatformTheme::themeHint`. -/
def themeHint (tk : Toolkit) (env : Env) (self : LXQtPlatformTheme) (hint : ThemeHint) :
    QVariant :=
  match hint with
  | ThemeHint.CursorFlashTime => self.cursorFlashTime_
  | ThemeHint.MouseDoubleClickInterval => self.doubleClickInterval_
  | ThemeHint.DropShadow => QVariant.bool true
  | ThemeHint.ToolButtonStyle => QVariant.int self.toolButtonStyle_
  | ThemeHint.ItemViewActivateItemOnSingleClick => QVariant.bool self.singleClickActivate_
  | ThemeHint.SystemIconThemeName => QVariant.string self.iconTheme_
  | ThemeHint.SystemIconFallbackThemeName => QVariant.string "hicolor"
  | ThemeHint.IconThemeSearchPaths => QVariant.stringList (xdgIconThemePaths tk env)
  | ThemeHint.StyleNames => QVariant.stringList [self.style_]
  | ThemeHint.DialogButtonBoxButtonsHaveIcons => QVariant.bool true
  | ThemeHint.KeyboardScheme => QVariant.int tk.X11KeyboardScheme
  -- every other case label, and `default:`, leaves the switch
  | _ => tk.baseThemeHint hint

/-- The hints for which the `switch` of `themeHint` returns a value of its own. -/
def recognisedHints : List ThemeHint :=
  [ThemeHint.CursorFlashTime, ThemeHint.MouseDoubleClickInterval, ThemeHint.DropShadow,
   ThemeHint.ToolButtonStyle, ThemeHint.ItemViewActivateItemOnSingleClick,
   ThemeHint.SystemIconThemeName, ThemeHint.SystemIconFallbackThemeName,
   ThemeHint.IconThemeSearchPaths, ThemeHint.StyleNames,
   ThemeHint.DialogButtonBoxButtonsHaveIcons, ThemeHint.KeyboardScheme]

/-- The pointer that `font` returns: the address of one of the two font members, or
whatever the base class returned. -/
inductive FontPtr where
  | font_
  | fixedFont_
  | base (p : Option QFont)
  deriving DecidableEq, Repr

/-- The font object a returned pointer points to; `none` for the null pointer. -/
def FontPtr.deref (self : LXQtPlatformTheme) : FontPtr → Option QFont
  | FontPtr.font_ => some self.font_
  | FontPtr.fixedFont_ => some self.fixedFont_
  | FontPtr.base p => p

/-- The member function `LXQtPlatformTheme::font`. -/
def font (tk : Toolkit) (self : LXQtPlatformTheme) (type : Font) : FontPtr :=
  if type = Font.SystemFont ∧ self.fontStr_ ≠ "" then FontPtr.font_
  else if type = Font.FixedFont ∧ self.fixedFontStr_ ≠ "" then FontPtr.fixedFont_
  else FontPtr.base (tk.baseFont type)

/-- The member function `LXQtPlatformTheme::onSettingsChanged`. -/
def onSettingsChanged (tk : Toolkit) (env : Env) (self : LXQtPlatformTheme) :
    LXQtPlatformTheme × List AppCall :=
  let oldStyle := self.style_
  let oldIconTheme := self.iconTheme_
  let oldFont := self.fontStr_
  let oldFixedFont := self.fixedFontStr_
  -- reload the config file
  let loaded := loadSettings tk env self
  let self := loaded.1
  let calls := loaded.2
  -- the widget style is changed
  let calls := if self.style_ ≠ oldStyle then calls ++ [AppCall.setStyle self.style_] else calls
  -- the icon theme is changed
  let calls := if self.iconTheme_ ≠ oldIconTheme then calls ++ [AppCall.updateSystemTheme] else calls
  -- if font is changed
  let fontStep : LXQtPlatformTheme × List AppCall :=
    if oldFont ≠ self.fontStr_ ∨ oldFixedFont ≠ self.fixedFontStr_ then
      let fixedFont_ := (tk.fontFromString self.fixedFont_ self.fixedFontStr_).2
      let parsed := tk.fontFromString self.font_ self.fontStr_
      ({ self with fixedFont_ := fixedFont_, font_ := parsed.2 },
        if parsed.1 = true then calls ++ [AppCall.setFont parsed.2] else calls)
    else (self, calls)
  -- emit a ThemeChange event to all widgets
  (fontStep.1, fontStep.2 ++ env.allWidgets.map AppCall.sendThemeChange)

/-- The member function `LXQtPlatformTheme::initWatch`. -/
def initWatch (self : LXQtPlatformTheme) : LXQtPlatformTheme :=
  { self with settingsWatcher_ := some [self.settingsFile_] }

/-- The member function `LXQtPlatformTheme::usePlatformNativeDialog`. -/
def usePlatformNativeDialog (_type : Nat) : Bool := false

/-- Whether a recorded call is a `QApplication::setFont`. -/
def AppCall.isSetFont : AppCall → Bool
  | AppCall.setFont _ => true
  | _ => false

/-- Whether a recorded call is a `qApp->setStyle`. -/
def AppCall.isSetStyle : AppCall → Bool
  | AppCall.setStyle _ => true
  | _ => false

/-! ## `lxqtfiledialoghelper.cpp` -/

/-- A `QUrl`, by its text. -/
abbrev QUrl := String

/-- The two values of `QFileDialog::ViewMode`. -/
inductive ViewMode where
  | Detail
  | List
  deriving DecidableEq, Repr

/-- The view modes of `Fm::FolderView` that `initDialog` passes. -/
inductive FolderViewMode where
  | DetailedListMode
  | CompactMode
  deriving DecidableEq, Repr

/-- What `initDialog` reads from `options()` (`QFileDialogOptions`); flags and enum values
other than the view mode are kept as numbers. -/
structure DialogOptions where
  filter : Nat
  viewMode : ViewMode
  fileMode : Nat
  acceptMode : Nat
  nameFilters : List String
  mimeTypeFilters : List String
  defaultSuffix : String
  initialDirectory : QUrl
  initiallySelectedMimeTypeFilter : String
  initiallySelectedNameFilter : String
  initiallySelectedFiles : List QUrl
  deriving DecidableEq, Repr

/-- A member function call on the dialog widget `dlg_` (`Fm::FileDialog`). -/
inductive DialogCall where
  | exec
  | show
  | hide
  | setFocus
  | setAttributeNativeWindow (enable : Bool)
  | setWindowFlags (windowFlags : Nat)
  | setWindowModality (windowModality : Nat)
  /-- The call `dlg_->windowHandle()->setTransientParent(parent)`; `none` is a null parent. -/
  | windowHandleSetTransientParent (parent : Option Nat)
  | setFilter (filter : Nat)
  | setViewMode (mode : FolderViewMode)
  | setFileMode (mode : Nat)
  | setAcceptMode (mode : Nat)
  | setNameFilters (filters : List String)
  | setMimeTypeFilters (filters : List String)
  | setDefaultSuffix (suffix : String)
  | setDirectory (directory : QUrl)
  | selectFile (filename : QUrl)
  | selectNameFilter (filter : String)
  deriving DecidableEq, Repr

/-- What a member function of the helper does to the outside, in program order: a call on
the widget made before the function returns, or a task handed to the main loop by
`QTimer::singleShot(msec, dlg_.get(), slot)` that calls the widget when the loop runs it. -/
inductive HelperEffect where
  | call (c : DialogCall)
  | singleShot (msec : Nat) (slot : DialogCall)
  deriving DecidableEq, Repr

/-- The member function `LXQtFileDialogHelper::setDirectory`. -/
def LXQtFileDialogHelper.setDirectory (directory : QUrl) : List HelperEffect :=
  [HelperEffect.call (DialogCall.setDirectory directory)]

/-- The member function `LXQtFileDialogHelper::selectFile`. -/
def LXQtFileDialogHelper.selectFile (filename : QUrl) : List HelperEffect :=
  [HelperEffect.call (DialogCall.selectFile filename)]

/-- The member function `LXQtFileDialogHelper::selectMimeTypeFilter`, whose body is empty. -/
def LXQtFileDialogHelper.selectMimeTypeFilter (_filter : String) : List HelperEffect :=
  []

/-- The member function `LXQtFileDialogHelper::selectNameFilter`. -/
def LXQtFileDialogHelper.selectNameFilter (filter : String) : List HelperEffect :=
  [HelperEffect.call (DialogCall.selectNameFilter filter)]

/-- The member function `LXQtFileDialogHelper::hide`. -/
def LXQtFileDialogHelper.hide : List HelperEffect :=
  [HelperEffect.call DialogCall.hide]

/-- The member function `LXQtFileDialogHelper::exec`. -/
def LXQtFileDialogHelper.exec : List HelperEffect :=
  [HelperEffect.call DialogCall.exec]

/-- The member function `LXQtFileDialogHelper::defaultNameFilterDisables`. -/
def LXQtFileDialogHelper.defaultNameFilterDisables : Bool := false

/-- The member function `LXQtFileDialogHelper::show`: the value returned and the effects.
The window handle is taken to exist, which is what the source sets `WA_NativeWindow`
for. -/
def LXQtFileDialogHelper.show (windowFlags windowModality : Nat) (parent : Option Nat) :
    Bool × List HelperEffect :=
  (true,
    [HelperEffect.call (DialogCall.setAttributeNativeWindow true),
     HelperEffect.call (DialogCall.setWindowFlags windowFlags),
     HelperEffect.call (DialogCall.setWindowModality windowModality),
     HelperEffect.call (DialogCall.windowHandleSetTransientParent parent),
     HelperEffect.singleShot 0 DialogCall.show,
     HelperEffect.call DialogCall.setFocus])

/-- The member function `LXQtFileDialogHelper::initDialog`; `isValid` is `QUrl::isValid`. -/
def LXQtFileDialogHelper.initDialog (isValid : QUrl → Bool) (opt : DialogOptions) :
    List HelperEffect :=
  [HelperEffect.call (DialogCall.setFilter opt.filter),
   HelperEffect.call (DialogCall.setViewMode
     (if opt.viewMode = ViewMode.Detail then FolderViewMode.DetailedListMode
      else FolderViewMode.CompactMode)),
   HelperEffect.call (DialogCall.setFileMode opt.fileMode),
   HelperEffect.call (DialogCall.setAcceptMode opt.acceptMode),
   HelperEffect.call (DialogCall.setNameFilters opt.nameFilters)]
  ++ (if opt.mimeTypeFilters ≠ [] then
        [HelperEffect.call (DialogCall.setMimeTypeFilters opt.mimeTypeFilters)]
      else [])
  ++ [HelperEffect.call (DialogCall.setDefaultSuffix opt.defaultSuffix)]
  ++ (if isValid opt.initialDirectory = true then
        [HelperEffect.call (DialogCall.setDirectory opt.initialDirectory)]
      else [])
  ++ (if opt.initiallySelectedMimeTypeFilter ≠ "" then
        LXQtFileDialogHelper.selectMimeTypeFilter opt.initiallySelectedMimeTypeFilter
      else [])
  ++ (if opt.initiallySelectedNameFilter ≠ "" then
        LXQtFileDialogHelper.selectNameFilter opt.initiallySelectedNameFilter
      else [])
  ++ (opt.initiallySelectedFiles.map LXQtFileDialogHelper.selectFile).flatten

/-- Whether an effect is a call of the widget's `setMimeTypeFilters` made within the
function. -/
def HelperEffect.isSetMimeTypeFilters : HelperEffect → Bool
  | HelperEffect.call (DialogCall.setMimeTypeFilters _) => true
  | _ => false

/-- Whether an effect is a call of the widget's `setDirectory` made within the function. -/
def HelperEffect.isSetDirectory : HelperEffect → Bool
  | HelperEffect.call (DialogCall.setDirectory _) => true
  | _ => false

/-- Whether an effect is a task posted to the main loop that will call the widget's
`show`. -/
def HelperEffect.isDeferredShow : HelperEffect → Bool
  | HelperEffect.singleShot _ DialogCall.show => true
  | _ => false

/-- Whether an effect is a task posted to the main loop. -/
def HelperEffect.isSingleShot : HelperEffect → Bool
  | HelperEffect.singleShot _ _ => true
  | _ => false


/-- The value the layered store has for a full key: the one in the user file, else the one
in the system-wide file, else the given default. -/
def storedValue (store : SettingsStore) (fullKey : String) (defaultValue : QVariant) :
    QVariant :=
  (store.find fullKey).getD defaultValue

/-! ## A concrete toolkit and environment

Used to evaluate the definitions on explicit inputs. -/

/-- The value of a string of decimal digits. -/
def digitsValue (str : String) : Nat :=
  str.toList.foldl (fun n c => 10 * n + (c.toNat - 48)) 0

/-- A font descriptor parser for the examples: `family` or `family,pointSize`; as
`QFont::fromString` does, it returns false and leaves the receiver as it was when the family
is empty, and it keeps the attributes of the receiver that the descriptor does not give. -/
def sampleFontFromString (receiver : QFont) (descrip : String) : Bool × QFont :=
  match split descrip ',' with
  | [] => (false, receiver)
  | family :: rest =>
    if family = "" then (false, receiver)
    else
      match rest with
      | [] => (true, { family := family, pointSize := receiver.pointSize })
      | size :: _ => (true, { family := family, pointSize := digitsValue size })

/-- The conversion to a string for the examples, as the toolkit documents it for the kinds
of value listed in `QVariant`. -/
def sampleVariantToString : QVariant → String
  | QVariant.invalid => ""
  | QVariant.bool b => if b then "true" else "false"
  | QVariant.int i => toString i
  | QVariant.string str => str
  | QVariant.stringList [str] => str
  | QVariant.stringList _ => ""

/-- The conversion to a boolean for the examples, as the toolkit documents it. -/
def sampleVariantToBool : QVariant → Bool
  | QVariant.invalid => false
  | QVariant.bool b => b
  | QVariant.int i => i ≠ 0
  | QVariant.string str => !(str = "" || str = "0" || str.toLower = "false")
  | QVariant.stringList _ => false

/-- Drops the second of two neighbouring slashes, as the toolkit does when it makes a path
absolute. -/
def collapseSlashes : List Char → List Char
  | [] => []
  | [c] => [c]
  | c :: d :: rest =>
    if c = '/' ∧ d = '/' then collapseSlashes (d :: rest)
    else c :: collapseSlashes (d :: rest)

/-- A toolkit for the examples. The enum table is that of `Qt::ToolButtonStyle`; the base
class `QPlatformTheme` has no font of its own and is given recognisable hint values. -/
def sampleToolkit : Toolkit :=
  { variantToString := sampleVariantToString
    variantToBool := sampleVariantToBool
    variantToByteArray := sampleVariantToString
    toolButtonStyleKeys :=
      [("ToolButtonIconOnly", 0), ("ToolButtonTextOnly", 1), ("ToolButtonTextBesideIcon", 2),
       ("ToolButtonTextUnderIcon", 3), ("ToolButtonFollowStyle", 4)]
    ToolButtonTextBesideIcon := 2
    X11KeyboardScheme := 2
    fontFromString := sampleFontFromString
    baseThemeHint := fun _ => QVariant.string "toolkit default"
    baseFont := fun _ => none
    absoluteFilePath := fun path => String.mk (collapseSlashes path.toList) }

/-- A provider state as it is before the first `loadSettings`. -/
def sampleTheme : LXQtPlatformTheme :=
  { settingsFile_ := ""
    iconTheme_ := ""
    toolButtonStyle_ := 0
    singleClickActivate_ := false
    style_ := ""
    fontStr_ := ""
    font_ := { family := "Default", pointSize := 9 }
    fixedFontStr_ := ""
    fixedFont_ := { family := "Default", pointSize := 9 }
    doubleClickInterval_ := QVariant.invalid
    wheelScrollLines_ := QVariant.invalid
    cursorFlashTime_ := QVariant.invalid
    settingsWatcher_ := none }

/-- A provider state that differs from `sampleTheme` in its font objects. -/
def sampleThemeSerif : LXQtPlatformTheme :=
  { sampleTheme with
    font_ := { family := "Serif", pointSize := 12 }
    fixedFont_ := { family := "Courier", pointSize := 11 } }

/-- An environment whose settings files hold none of the recognised keys. -/
def emptyEnv : Env :=
  { store := { fileName := "/home/user/.config/lxqt/lxqt.conf", userFile := [], systemFile := [] }
    xdgDataDirs := none
    homePath := "/home/user"
    isDir := fun path => decide (path ∈ ["/home/user/.icons", "/usr/share//icons"])
    allWidgets := [] }

/-- An environment with a user file and a system-wide file, and two live widgets. -/
def sampleEnv : Env :=
  { store :=
      { fileName := "/home/user/.config/lxqt/lxqt.conf"
        userFile :=
          [("icon_theme", QVariant.string "breeze"),
           ("tool_button_style", QVariant.string "ToolButtonIconOnly"),
           ("Qt/font", QVariant.string "Sans,10"),
           ("Qt/wheelScrollLines", QVariant.string "3")]
        systemFile :=
          [("icon_theme", QVariant.string "oxygen"),
           ("Qt/style", QVariant.string "windows")] }
    xdgDataDirs := some "/opt/share:/usr/share"
    homePath := "/home/user"
    isDir := fun path => decide (path ∈ ["/usr/share/icons", "/opt/share/icons"])
    allWidgets := [1, 2] }

/-- An environment whose font string does not parse. -/
def badFontEnv : Env :=
  { sampleEnv with
    store :=
      { fileName := "/home/user/.config/lxqt/lxqt.conf"
        userFile := [("Qt/font", QVariant.string ",")]
        systemFile := [] } }

/-- Dialog options with mime-type filters and a valid initial directory. -/
def sampleOptions : DialogOptions :=
  { filter := 0
    viewMode := ViewMode.Detail
    fileMode := 1
    acceptMode := 0
    nameFilters := ["Images (*.png)"]
    mimeTypeFilters := ["image/png", "image/jpeg"]
    defaultSuffix := "png"
    initialDirectory := "file:///home/user"
    initiallySelectedMimeTypeFilter := "image/png"
    initiallySelectedNameFilter := "Images (*.png)"
    initiallySelectedFiles := ["file:///home/user/a.png", "file:///home/user/b.png"] }

/-- A validity check for the examples: a URL text is valid when it is not empty. -/
def sampleIsValid (url : QUrl) : Bool := url ≠ ""

/-- Joins parts with a separator between neighbours. -/
def joinChars (sep : Char) : List (List Char) → List Char
  | [] => []
  | [part] => part
  | part :: next :: rest => part ++ sep :: joinChars sep (next :: rest)

/-- The colon-separated list of the given directories, as the value of `XDG_DATA_DIRS`. -/
def joinColon (dirs : List String) : String :=
  String.mk (joinChars ':' (dirs.map String.toList))

/-! ## Theme hints -/

/-- C1: for a hint that the `switch` of `themeHint` does not answer itself, `themeHint`
returns `QPlatformTheme::themeHint(hint)`, and the result is the same for every other
provider state and environment: no member, `wheelScrollLines_` included, reaches it. -/
theorem themeHint_unrecognised (tk : Toolkit) (env env2 : Env)
    (self self2 : LXQtPlatformTheme) (hint : ThemeHint) (h : hint ∉ recognisedHints) :
    themeHint tk env self hint = tk.baseThemeHint hint ∧
      themeHint tk env2 self2 hint = themeHint tk env self hint := by
  cases hint <;> simp [recognisedHints] at h <;> simp [themeHint]

/-- C1, on an input: the hint `WheelScrollLines`, which the `switch` does not name, asked of a
provider that has loaded `wheelScrollLines = 3`. -/
theorem themeHint_unrecognised_witness :
    ThemeHint.other 0 ∉ recognisedHints ∧
      (loadSettings sampleToolkit sampleEnv sampleTheme).1.wheelScrollLines_ = QVariant.string "3" ∧
      (themeHint sampleToolkit sampleEnv (loadSettings sampleToolkit sampleEnv sampleTheme).1
          (ThemeHint.other 0) = sampleToolkit.baseThemeHint (ThemeHint.other 0) ∧
        themeHint sampleToolkit emptyEnv sampleTheme (ThemeHint.other 0)
          = themeHint sampleToolkit sampleEnv (loadSettings sampleToolkit sampleEnv sampleTheme).1
              (ThemeHint.other 0)) :=
  ⟨by decide, by decide,
    themeHint_unrecognised sampleToolkit sampleEnv emptyEnv
      (loadSettings sampleToolkit sampleEnv sampleTheme).1 sampleTheme (ThemeHint.other 0)
      (by decide)⟩

/-! ## Reaction to a changed settings file -/

/-- The style is not touched after the reload inside `onSettingsChanged`. -/
theorem onSettingsChanged_style (tk : Toolkit) (env : Env) (self : LXQtPlatformTheme) :
    (onSettingsChanged tk env self).1.style_ = (loadSettings tk env self).1.style_ := by
  unfold onSettingsChanged
  dsimp only
  split <;> rfl

/-- The reload itself never asks for a style switch. -/
theorem loadSettings_no_setStyle (tk : Toolkit) (env : Env) (self : LXQtPlatformTheme) :
    (loadSettings tk env self).2.filter AppCall.isSetStyle = [] := by
  unfold loadSettings
  dsimp only
  split <;> [split; skip] <;> simp [AppCall.isSetStyle]

/-- C7: the `setStyle` calls of one run of `onSettingsChanged` are exactly one call with
the reloaded style when it differs from the previous style, and none when it is the same. -/
theorem onSettingsChanged_setStyle (tk : Toolkit) (env : Env) (self : LXQtPlatformTheme) :
    (onSettingsChanged tk env self).2.filter AppCall.isSetStyle =
      if (loadSettings tk env self).1.style_ ≠ self.style_ then
        [AppCall.setStyle (loadSettings tk env self).1.style_]
      else [] := by
  have hload := loadSettings_no_setStyle tk env self
  have hmap : ∀ l : List Nat, (l.map AppCall.sendThemeChange).filter AppCall.isSetStyle = [] := by
    intro l
    induction l with
    | nil => rfl
    | cons w ws ih => simp [AppCall.isSetStyle]
  unfold onSettingsChanged
  dsimp only
  split_ifs <;> simp [List.filter_append, hload, hmap, AppCall.isSetStyle]


/-- The reload pushes the font exactly when the font string is not empty and parses. -/
theorem loadSettings_setFont (tk : Toolkit) (env : Env) (self : LXQtPlatformTheme) :
    (loadSettings tk env self).2 =
      if (loadSettings tk env self).1.fontStr_ ≠ "" ∧
          (tk.fontFromString self.font_ (loadSettings tk env self).1.fontStr_).1 = true then
        [AppCall.setFont (loadSettings tk env self).1.font_]
      else [] := by
  unfold loadSettings
  dsimp only
  split_ifs <;> simp_all

/-- C8, as the code has it: the `setFont` calls of one run of `onSettingsChanged` are the one
made by the reload, present whenever the reloaded font string is not empty and parses, whether
or not a string changed, followed by one more with the font parsed again from the reloaded
font string, present when the font string or the fixed-font string changed and that second
parse succeeds. -/
theorem onSettingsChanged_setFont (tk : Toolkit) (env : Env) (self : LXQtPlatformTheme) :
    (onSettingsChanged tk env self).2.filter AppCall.isSetFont =
      (if (loadSettings tk env self).1.fontStr_ ≠ "" ∧
          (tk.fontFromString self.font_ (loadSettings tk env self).1.fontStr_).1 = true then
        [AppCall.setFont (loadSettings tk env self).1.font_]
      else [])
      ++
      (if (self.fontStr_ ≠ (loadSettings tk env self).1.fontStr_ ∨
            self.fixedFontStr_ ≠ (loadSettings tk env self).1.fixedFontStr_) ∧
          (tk.fontFromString (loadSettings tk env self).1.font_
            (loadSettings tk env self).1.fontStr_).1 = true then
        [AppCall.setFont (tk.fontFromString (loadSettings tk env self).1.font_
          (loadSettings tk env self).1.fontStr_).2]
      else []) := by
  have hload := loadSettings_setFont tk env self
  have hmap : ∀ l : List Nat, (l.map AppCall.sendThemeChange).filter AppCall.isSetFont = [] := by
    intro l
    induction l with
    | nil => rfl
    | cons w ws ih => simp [AppCall.isSetFont]
  unfold onSettingsChanged
  dsimp only
  rw [hload]
  clear hload
  generalize loadSettings tk env self = loaded
  split_ifs <;> first
    | (simp [List.filter_append, hmap, AppCall.isSetFont]; done)
    | (exfalso; tauto)

/-- C8 fails as stated: the provider has loaded `sampleEnv`, the file-change event finds the
same files, so neither the font string nor the fixed-font string differs, and the event still
pushes the application-wide font, from inside the reload. -/
theorem onSettingsChanged_pushes_unchanged_font :
    (loadSettings sampleToolkit sampleEnv
        (loadSettings sampleToolkit sampleEnv sampleTheme).1).1.fontStr_
      = (loadSettings sampleToolkit sampleEnv sampleTheme).1.fontStr_ ∧
    (loadSettings sampleToolkit sampleEnv
        (loadSettings sampleToolkit sampleEnv sampleTheme).1).1.fixedFontStr_
      = (loadSettings sampleToolkit sampleEnv sampleTheme).1.fixedFontStr_ ∧
    (onSettingsChanged sampleToolkit sampleEnv
        (loadSettings sampleToolkit sampleEnv sampleTheme).1).2
      = [AppCall.setFont { family := "Sans", pointSize := 10 },
         AppCall.sendThemeChange 1, AppCall.sendThemeChange 2] := by
  decide

/-! ## The file dialog helper -/

/-- C9: among the calls `initDialog` makes on the widget, `setMimeTypeFilters` occurs once,
with the mime-type filters of the options, when they are not empty, and not at all when they
are empty; `setDirectory` occurs once, with the initial directory, when that URL is valid, and
not at all when it is not. -/
theorem initDialog_guarded_calls (isValid : QUrl → Bool) (opt : DialogOptions) :
    (LXQtFileDialogHelper.initDialog isValid opt).filter HelperEffect.isSetMimeTypeFilters =
        (if opt.mimeTypeFilters ≠ [] then
          [HelperEffect.call (DialogCall.setMimeTypeFilters opt.mimeTypeFilters)]
        else []) ∧
      (LXQtFileDialogHelper.initDialog isValid opt).filter HelperEffect.isSetDirectory =
        (if isValid opt.initialDirectory = true then
          [HelperEffect.call (DialogCall.setDirectory opt.initialDirectory)]
        else []) := by
  have hfiles : ∀ (p : HelperEffect → Bool) (files : List QUrl),
      (∀ f, p (HelperEffect.call (DialogCall.selectFile f)) = false) →
      ((files.map LXQtFileDialogHelper.selectFile).flatten).filter p = [] := by
    intro p files hp
    induction files with
    | nil => rfl
    | cons f fs ih =>
      simp only [List.map_cons, List.flatten_cons, List.filter_append, ih, List.append_nil]
      simp [LXQtFileDialogHelper.selectFile, hp]
  have h1 := hfiles HelperEffect.isSetMimeTypeFilters opt.initiallySelectedFiles (fun _ => rfl)
  have h2 := hfiles HelperEffect.isSetDirectory opt.initiallySelectedFiles (fun _ => rfl)
  unfold LXQtFileDialogHelper.initDialog
  constructor
  · simp only [List.filter_append, h1]
    split_ifs <;>
      simp [HelperEffect.isSetMimeTypeFilters, LXQtFileDialogHelper.selectMimeTypeFilter,
        LXQtFileDialogHelper.selectNameFilter]
  · simp only [List.filter_append, h2]
    split_ifs <;>
      simp [HelperEffect.isSetDirectory, LXQtFileDialogHelper.selectMimeTypeFilter,
        LXQtFileDialogHelper.selectNameFilter]

/-- C10: `show` returns true; none of its effects is a call of the widget's `show`; exactly
one task is handed to the main loop, with delay zero, and it is the one that calls the widget's
`show`; the focus request comes after that task is posted and not before. -/
theorem show_defers_widget_show (windowFlags windowModality : Nat) (parent : Option Nat) :
    (LXQtFileDialogHelper.show windowFlags windowModality parent).1 = true ∧
      HelperEffect.call DialogCall.show ∉
        (LXQtFileDialogHelper.show windowFlags windowModality parent).2 ∧
      (LXQtFileDialogHelper.show windowFlags windowModality parent).2.filter
          HelperEffect.isSingleShot = [HelperEffect.singleShot 0 DialogCall.show] ∧
      (LXQtFileDialogHelper.show windowFlags windowModality parent).2.filter
          HelperEffect.isDeferredShow = [HelperEffect.singleShot 0 DialogCall.show] ∧
      ∃ before after,
        (LXQtFileDialogHelper.show windowFlags windowModality parent).2
            = before ++ HelperEffect.singleShot 0 DialogCall.show :: after ∧
          HelperEffect.call DialogCall.setFocus ∉ before ∧
          HelperEffect.call DialogCall.setFocus ∈ after := by
  refine ⟨rfl, ?_, ?_, ?_, ?_⟩
  · simp [LXQtFileDialogHelper.show]
  · simp [LXQtFileDialogHelper.show, HelperEffect.isSingleShot]
  · simp [LXQtFileDialogHelper.show, HelperEffect.isDeferredShow]
  · refine ⟨[HelperEffect.call (DialogCall.setAttributeNativeWindow true),
        HelperEffect.call (DialogCall.setWindowFlags windowFlags),
        HelperEffect.call (DialogCall.setWindowModality windowModality),
        HelperEffect.call (DialogCall.windowHandleSetTransientParent parent)],
      [HelperEffect.call DialogCall.setFocus], ?_, ?_, ?_⟩
    · simp [LXQtFileDialogHelper.show]
    · simp
    · simp


/-! ## Loading the settings -/

/-- A value read at top level is the stored value of the key. -/
theorem value_create (store : SettingsStore) (key : String) (defaultValue : QVariant) :
    (QSettings.create store).value key defaultValue = storedValue store key defaultValue := by
  simp only [QSettings.value, QSettings.create, QSettings.fullKey, storedValue, List.foldr]
  cases store.find key <;> rfl

/-- A value read inside the group `Qt` is the stored value of the key `Qt/key`. -/
theorem value_group_Qt (store : SettingsStore) (key : String) (defaultValue : QVariant) :
    ((QSettings.create store).beginGroup "Qt").value key defaultValue
      = storedValue store ("Qt" ++ "/" ++ key) defaultValue := by
  simp only [QSettings.value, QSettings.create, QSettings.beginGroup, QSettings.fullKey,
    storedValue, List.nil_append, List.foldr]
  cases store.find ("Qt" ++ "/" ++ key) <;> rfl

/-- What `loadSettings` leaves in each member, in terms of the stored values. -/
theorem loadSettings_members (tk : Toolkit) (env : Env) (self : LXQtPlatformTheme) :
    (loadSettings tk env self).1 =
      { settingsFile_ := env.store.fileName
        iconTheme_ :=
          tk.variantToString (storedValue env.store "icon_theme" (QVariant.string "oxygen"))
        toolButtonStyle_ :=
          if keyToValue tk.toolButtonStyleKeys
              (tk.variantToByteArray (storedValue env.store "tool_button_style" QVariant.invalid))
              = -1 then tk.ToolButtonTextBesideIcon
          else keyToValue tk.toolButtonStyleKeys
              (tk.variantToByteArray (storedValue env.store "tool_button_style" QVariant.invalid))
        singleClickActivate_ :=
          tk.variantToBool (storedValue env.store "single_click_activate" QVariant.invalid)
        style_ := tk.variantToString (storedValue env.store "Qt/style" (QVariant.string "fusion"))
        fontStr_ := tk.variantToString (storedValue env.store "Qt/font" QVariant.invalid)
        font_ :=
          if tk.variantToString (storedValue env.store "Qt/font" QVariant.invalid) = "" then
            self.font_
          else (tk.fontFromString self.font_
            (tk.variantToString (storedValue env.store "Qt/font" QVariant.invalid))).2
        fixedFontStr_ := tk.variantToString (storedValue env.store "Qt/fixedFont" QVariant.invalid)
        fixedFont_ :=
          if tk.variantToString (storedValue env.store "Qt/fixedFont" QVariant.invalid) = "" then
            self.fixedFont_
          else (tk.fontFromString self.fixedFont_
            (tk.variantToString (storedValue env.store "Qt/fixedFont" QVariant.invalid))).2
        doubleClickInterval_ := storedValue env.store "Qt/doubleClickInterval" QVariant.invalid
        wheelScrollLines_ := storedValue env.store "Qt/wheelScrollLines" QVariant.invalid
        cursorFlashTime_ := storedValue env.store "Qt/cursorFlashTime" QVariant.invalid
        settingsWatcher_ := self.settingsWatcher_ } := by
  have k1 : "Qt" ++ "/" ++ "style" = "Qt/style" := by decide
  have k2 : "Qt" ++ "/" ++ "font" = "Qt/font" := by decide
  have k3 : "Qt" ++ "/" ++ "fixedFont" = "Qt/fixedFont" := by decide
  have k4 : "Qt" ++ "/" ++ "doubleClickInterval" = "Qt/doubleClickInterval" := by decide
  have k5 : "Qt" ++ "/" ++ "wheelScrollLines" = "Qt/wheelScrollLines" := by decide
  have k6 : "Qt" ++ "/" ++ "cursorFlashTime" = "Qt/cursorFlashTime" := by decide
  unfold loadSettings
  simp only [value_create, value_group_Qt, k1, k2, k3, k4, k5, k6]
  congr 1
  · split_ifs <;> simp_all
  · split_ifs <;> simp_all


/-! ## Fonts -/

/-- C2, as the code has it: after `loadSettings`, `font(SystemFont)` is the toolkit's default
`QPlatformTheme::font(SystemFont)` when the stored font string is empty, and the address of
the member `font_` when it is not; `font_` then holds what `QFont::fromString` made of the
previous `font_` and the stored string, which is the parsed font when the string parses. The
same holds for `font(FixedFont)`, the fixed-font string and `fixedFont_`. -/
theorem font_after_loadSettings (tk : Toolkit) (env : Env) (self : LXQtPlatformTheme) :
    (font tk (loadSettings tk env self).1 Font.SystemFont =
        if tk.variantToString (storedValue env.store "Qt/font" QVariant.invalid) = "" then
          FontPtr.base (tk.baseFont Font.SystemFont)
        else FontPtr.font_) ∧
      ((font tk (loadSettings tk env self).1 Font.SystemFont).deref (loadSettings tk env self).1 =
        if tk.variantToString (storedValue env.store "Qt/font" QVariant.invalid) = "" then
          tk.baseFont Font.SystemFont
        else some (tk.fontFromString self.font_
          (tk.variantToString (storedValue env.store "Qt/font" QVariant.invalid))).2) ∧
      (font tk (loadSettings tk env self).1 Font.FixedFont =
        if tk.variantToString (storedValue env.store "Qt/fixedFont" QVariant.invalid) = "" then
          FontPtr.base (tk.baseFont Font.FixedFont)
        else FontPtr.fixedFont_) ∧
      ((font tk (loadSettings tk env self).1 Font.FixedFont).deref (loadSettings tk env self).1 =
        if tk.variantToString (storedValue env.store "Qt/fixedFont" QVariant.invalid) = "" then
          tk.baseFont Font.FixedFont
        else some (tk.fontFromString self.fixedFont_
          (tk.variantToString (storedValue env.store "Qt/fixedFont" QVariant.invalid))).2) := by
  rw [loadSettings_members]
  refine ⟨?_, ?_, ?_, ?_⟩ <;> simp only [font] <;> split_ifs <;> simp_all [FontPtr.deref]

/-- C2 fails as stated: the stored font string `,` is not empty and does not parse, and
`font(SystemFont)` returns the address of the provider's own `font_`, which still holds the
font it held before the load, not the toolkit's default. -/
theorem font_unparsable_not_default :
    (loadSettings sampleToolkit badFontEnv sampleThemeSerif).1.fontStr_ = "," ∧
      (sampleToolkit.fontFromString sampleThemeSerif.font_ ",").1 = false ∧
      font sampleToolkit (loadSettings sampleToolkit badFontEnv sampleThemeSerif).1 Font.SystemFont
        = FontPtr.font_ ∧
      font sampleToolkit (loadSettings sampleToolkit badFontEnv sampleThemeSerif).1 Font.SystemFont
        ≠ FontPtr.base (sampleToolkit.baseFont Font.SystemFont) ∧
      (font sampleToolkit (loadSettings sampleToolkit badFontEnv sampleThemeSerif).1
          Font.SystemFont).deref (loadSettings sampleToolkit badFontEnv sampleThemeSerif).1
        = some { family := "Serif", pointSize := 12 } := by
  decide

/-! ## The snapshot after a reload -/

/-- C3, as the code has it: two provider states that reload the same store agree afterwards
on the settings file path, icon theme, tool-button style, single-click flag, style, font
string, fixed-font string, double-click interval, wheel scroll lines and cursor flash time.
The font objects are not part of this: each is written only when its string is not empty,
from the previous object and the string, and is the previous object otherwise. -/
theorem loadSettings_overwrites (tk : Toolkit) (env : Env) (s1 s2 : LXQtPlatformTheme) :
    (loadSettings tk env s1).1.settingsFile_ = (loadSettings tk env s2).1.settingsFile_ ∧
      (loadSettings tk env s1).1.iconTheme_ = (loadSettings tk env s2).1.iconTheme_ ∧
      (loadSettings tk env s1).1.toolButtonStyle_ = (loadSettings tk env s2).1.toolButtonStyle_ ∧
      (loadSettings tk env s1).1.singleClickActivate_
        = (loadSettings tk env s2).1.singleClickActivate_ ∧
      (loadSettings tk env s1).1.style_ = (loadSettings tk env s2).1.style_ ∧
      (loadSettings tk env s1).1.fontStr_ = (loadSettings tk env s2).1.fontStr_ ∧
      (loadSettings tk env s1).1.fixedFontStr_ = (loadSettings tk env s2).1.fixedFontStr_ ∧
      (loadSettings tk env s1).1.doubleClickInterval_
        = (loadSettings tk env s2).1.doubleClickInterval_ ∧
      (loadSettings tk env s1).1.wheelScrollLines_ = (loadSettings tk env s2).1.wheelScrollLines_ ∧
      (loadSettings tk env s1).1.cursorFlashTime_ = (loadSettings tk env s2).1.cursorFlashTime_ ∧
      (loadSettings tk env s1).1.font_ =
        (if (loadSettings tk env s1).1.fontStr_ = "" then s1.font_
         else (tk.fontFromString s1.font_ (loadSettings tk env s1).1.fontStr_).2) ∧
      (loadSettings tk env s1).1.fixedFont_ =
        (if (loadSettings tk env s1).1.fixedFontStr_ = "" then s1.fixedFont_
         else (tk.fontFromString s1.fixedFont_ (loadSettings tk env s1).1.fixedFontStr_).2) := by
  rw [loadSettings_members tk env s1, loadSettings_members tk env s2]
  exact ⟨rfl, rfl, rfl, rfl, rfl, rfl, rfl, rfl, rfl, rfl, rfl, rfl⟩

/-- C3 fails as stated: two provider states that differ in their font objects reload a store
without font keys, and afterwards each still has its own previous font objects. -/
theorem loadSettings_keeps_stale_fonts :
    (loadSettings sampleToolkit emptyEnv sampleTheme).1.font_
        = { family := "Default", pointSize := 9 } ∧
      (loadSettings sampleToolkit emptyEnv sampleThemeSerif).1.font_
        = { family := "Serif", pointSize := 12 } ∧
      (loadSettings sampleToolkit emptyEnv sampleTheme).1.font_
        ≠ (loadSettings sampleToolkit emptyEnv sampleThemeSerif).1.font_ ∧
      (loadSettings sampleToolkit emptyEnv sampleTheme).1.fixedFont_
        ≠ (loadSettings sampleToolkit emptyEnv sampleThemeSerif).1.fixedFont_ := by
  decide

/-! ## Defaults and the tool-button style -/

/-- C4: when the toolkit converts a string variant to the string it holds, the invalid
variant to false, and has no enum key for the bytes of the invalid variant, then a key that
is in neither settings file gets its default: `icon_theme` gives `oxygen`, `Qt/style` gives
`fusion`, `single_click_activate` gives false, `tool_button_style` gives text-beside-icon;
and `themeHint` reports these values. -/
theorem loadSettings_defaults (tk : Toolkit) (env : Env) (self : LXQtPlatformTheme)
    (hstring : ∀ str, tk.variantToString (QVariant.string str) = str)
    (hbool : tk.variantToBool QVariant.invalid = false)
    (hkey : tk.toolButtonStyleKeys.lookup (tk.variantToByteArray QVariant.invalid) = none) :
    (env.store.find "icon_theme" = none →
        (loadSettings tk env self).1.iconTheme_ = "oxygen" ∧
        themeHint tk env (loadSettings tk env self).1 ThemeHint.SystemIconThemeName
          = QVariant.string "oxygen") ∧
      (env.store.find "Qt/style" = none →
        (loadSettings tk env self).1.style_ = "fusion" ∧
        themeHint tk env (loadSettings tk env self).1 ThemeHint.StyleNames
          = QVariant.stringList ["fusion"]) ∧
      (env.store.find "single_click_activate" = none →
        (loadSettings tk env self).1.singleClickActivate_ = false ∧
        themeHint tk env (loadSettings tk env self).1 ThemeHint.ItemViewActivateItemOnSingleClick
          = QVariant.bool false) ∧
      (env.store.find "tool_button_style" = none →
        (loadSettings tk env self).1.toolButtonStyle_ = tk.ToolButtonTextBesideIcon ∧
        themeHint tk env (loadSettings tk env self).1 ThemeHint.ToolButtonStyle
          = QVariant.int tk.ToolButtonTextBesideIcon) := by
  rw [loadSettings_members]
  refine ⟨?_, ?_, ?_, ?_⟩ <;> intro habsent <;>
    simp [themeHint, storedValue, habsent, hstring, hbool, keyToValue, hkey]

/-- C4, on an input: the sample toolkit and a store without any key. -/
theorem loadSettings_defaults_witness :
    (∀ str, sampleToolkit.variantToString (QVariant.string str) = str) ∧
      sampleToolkit.variantToBool QVariant.invalid = false ∧
      sampleToolkit.toolButtonStyleKeys.lookup (sampleToolkit.variantToByteArray QVariant.invalid)
        = none ∧
      (loadSettings sampleToolkit emptyEnv sampleTheme).1.iconTheme_ = "oxygen" ∧
      (loadSettings sampleToolkit emptyEnv sampleTheme).1.style_ = "fusion" ∧
      (loadSettings sampleToolkit emptyEnv sampleTheme).1.singleClickActivate_ = false ∧
      (loadSettings sampleToolkit emptyEnv sampleTheme).1.toolButtonStyle_ = 2 ∧
      themeHint sampleToolkit emptyEnv (loadSettings sampleToolkit emptyEnv sampleTheme).1
        ThemeHint.StyleNames = QVariant.stringList ["fusion"] :=
  have h := loadSettings_defaults sampleToolkit emptyEnv sampleTheme (fun _ => rfl) rfl
    (by decide)
  ⟨fun _ => rfl, rfl, by decide, (h.1 (by decide)).1, (h.2.1 (by decide)).1,
    (h.2.2.1 (by decide)).1, (h.2.2.2 (by decide)).1, (h.2.1 (by decide)).2⟩

/-- C5: for a string stored under `tool_button_style` that the toolkit hands on unchanged as
bytes, with the enum table not giving `-1` for it: `loadSettings` sets the tool-button style
to the table's value for the string when the table has it as a key, and to text-beside-icon
when it has not; `themeHint(ToolButtonStyle)` returns the value chosen. -/
theorem loadSettings_toolButtonStyle (tk : Toolkit) (env : Env) (self : LXQtPlatformTheme)
    (str : String)
    (hstored : env.store.find "tool_button_style" = some (QVariant.string str))
    (hbytes : tk.variantToByteArray (QVariant.string str) = str)
    (hvalue : tk.toolButtonStyleKeys.lookup str ≠ some (-1)) :
    (loadSettings tk env self).1.toolButtonStyle_ =
        (match tk.toolButtonStyleKeys.lookup str with
          | some value => value
          | none => tk.ToolButtonTextBesideIcon) ∧
      themeHint tk env (loadSettings tk env self).1 ThemeHint.ToolButtonStyle
        = QVariant.int (loadSettings tk env self).1.toolButtonStyle_ := by
  rw [loadSettings_members]
  refine ⟨?_, rfl⟩
  simp only [storedValue, hstored, Option.getD_some, hbytes, keyToValue]
  cases hlook : tk.toolButtonStyleKeys.lookup str with
  | none => simp
  | some value =>
    have hne : value ≠ -1 := fun h => hvalue (by rw [hlook, h])
    simp [hne]

/-- C5, on an input: the name `ToolButtonIconOnly`, which the table maps to 0. -/
theorem loadSettings_toolButtonStyle_witness :
    sampleEnv.store.find "tool_button_style" = some (QVariant.string "ToolButtonIconOnly") ∧
      sampleToolkit.variantToByteArray (QVariant.string "ToolButtonIconOnly")
        = "ToolButtonIconOnly" ∧
      sampleToolkit.toolButtonStyleKeys.lookup "ToolButtonIconOnly" ≠ some (-1) ∧
      ((loadSettings sampleToolkit sampleEnv sampleTheme).1.toolButtonStyle_ =
          (match sampleToolkit.toolButtonStyleKeys.lookup "ToolButtonIconOnly" with
            | some value => value
            | none => sampleToolkit.ToolButtonTextBesideIcon) ∧
        themeHint sampleToolkit sampleEnv (loadSettings sampleToolkit sampleEnv sampleTheme).1
            ThemeHint.ToolButtonStyle
          = QVariant.int (loadSettings sampleToolkit sampleEnv sampleTheme).1.toolButtonStyle_) :=
  ⟨by decide, rfl, by decide,
    loadSettings_toolButtonStyle sampleToolkit sampleEnv sampleTheme "ToolButtonIconOnly"
      (by decide) rfl (by decide)⟩


/-! ## Icon theme search paths -/

/-- Splitting never gives an empty list of parts. -/
theorem splitChars_ne_nil (sep : Char) (cs : List Char) : splitChars sep cs ≠ [] := by
  cases cs with
  | nil => simp [splitChars]
  | cons c cs =>
    unfold splitChars
    split_ifs
    · simp
    · split <;> simp

/-- Joining the parts of a split with the separator gives the text back. -/
theorem joinChars_splitChars (sep : Char) (cs : List Char) :
    joinChars sep (splitChars sep cs) = cs := by
  induction cs with
  | nil => simp [splitChars, joinChars]
  | cons c cs ih =>
    unfold splitChars
    split_ifs with hc
    · obtain ⟨part, parts, hparts⟩ := List.exists_cons_of_ne_nil (splitChars_ne_nil sep cs)
      rw [hparts] at ih ⊢
      simp [joinChars, ih, hc]
    · split
      · next hnil => exact absurd hnil (splitChars_ne_nil sep cs)
      · next part parts hparts =>
        rw [hparts] at ih
        cases parts with
        | nil => simpa [joinChars] using ih
        | cons next rest => simpa [joinChars] using ih

/-- No part of a split contains the separator. -/
theorem splitChars_no_sep (sep : Char) (cs : List Char) :
    ∀ part ∈ splitChars sep cs, sep ∉ part := by
  induction cs with
  | nil => simp [splitChars]
  | cons c cs ih =>
    unfold splitChars
    split_ifs with hc
    · intro part hpart
      rcases List.mem_cons.mp hpart with h | h
      · simp [h]
      · exact ih part h
    · split
      · next hnil => exact absurd hnil (splitChars_ne_nil sep cs)
      · next part parts hparts =>
        rw [hparts] at ih
        intro q hq
        rcases List.mem_cons.mp hq with h | h
        · subst h
          have := ih part (List.mem_cons_self _ _)
          simp [this, Ne.symm hc]
        · exact ih q (List.mem_cons_of_mem _ h)

/-- A split of a part without separator, followed by more text, starts with that part. -/
theorem splitChars_append (sep : Char) (part rest : List Char) (h : sep ∉ part) :
    splitChars sep (part ++ sep :: rest) = part :: splitChars sep rest := by
  induction part with
  | nil => simp [splitChars]
  | cons c cs ih =>
    have hc : c ≠ sep := fun e => h (by simp [e])
    have hcs : sep ∉ cs := fun e => h (List.mem_cons_of_mem _ e)
    simp [splitChars, hc, ih hcs]

/-- A text without separator is its own single part. -/
theorem splitChars_single (sep : Char) (part : List Char) (h : sep ∉ part) :
    splitChars sep part = [part] := by
  induction part with
  | nil => simp [splitChars]
  | cons c cs ih =>
    have hc : c ≠ sep := fun e => h (by simp [e])
    have hcs : sep ∉ cs := fun e => h (List.mem_cons_of_mem _ e)
    simp [splitChars, hc, ih hcs]

/-- Splitting a joined list of parts without separator gives the parts back. -/
theorem splitChars_joinChars (sep : Char) (parts : List (List Char)) (hne : parts ≠ [])
    (h : ∀ part ∈ parts, sep ∉ part) : splitChars sep (joinChars sep parts) = parts := by
  induction parts with
  | nil => exact absurd rfl hne
  | cons part rest ih =>
    cases rest with
    | nil => simpa [joinChars] using splitChars_single sep part (h part (List.mem_cons_self _ _))
    | cons next rest =>
      have hrest : ∀ q ∈ next :: rest, sep ∉ q := fun q hq => h q (List.mem_cons_of_mem _ hq)
      simp only [joinChars]
      rw [splitChars_append sep part _ (h part (List.mem_cons_self _ _)),
        ih (List.cons_ne_nil _ _) hrest]

/-- The colon-separated list of the parts of a split is the text that was split. -/
theorem joinColon_split (str : String) : joinColon (split str ':') = str := by
  simp only [joinColon, split, List.map_map]
  have hid : (String.toList ∘ String.mk) = id := by
    funext l
    rfl
  rw [hid, List.map_id, joinChars_splitChars]
  rfl

/-- No entry of a split at colons contains a colon. -/
theorem split_no_colon (str : String) : ∀ dir ∈ split str ':', ':' ∉ dir.toList := by
  intro dir hdir
  simp only [split, List.mem_map] at hdir
  obtain ⟨part, hpart, rfl⟩ := hdir
  exact splitChars_no_sep ':' str.toList part hpart

/-- The entries of a non-empty colon-separated list are found again by the split. -/
theorem split_joinColon (dirs : List String) (hne : joinColon dirs ≠ "")
    (h : ∀ dir ∈ dirs, ':' ∉ dir.toList) : split (joinColon dirs) ':' = dirs := by
  have hdirs : dirs ≠ [] := by
    rintro rfl
    exact hne rfl
  have hparts : dirs.map String.toList ≠ [] := by simpa using hdirs
  have hsep : ∀ part ∈ dirs.map String.toList, ':' ∉ part := by
    intro part hpart
    obtain ⟨dir, hdir, rfl⟩ := List.mem_map.mp hpart
    exact h dir hdir
  simp only [split, joinColon]
  have hlist : (String.mk (joinChars ':' (dirs.map String.toList))).toList
      = joinChars ':' (dirs.map String.toList) := rfl
  rw [hlist, splitChars_joinChars ':' _ hparts hsep, List.map_map]
  have hid : (String.mk ∘ String.toList) = id := by
    funext l
    rfl
  rw [hid, List.map_id]

/-- The loop appends, in order, the icons directory of every entry that has one. -/
theorem xdgIconThemePathsLoop_eq (tk : Toolkit) (env : Env) (paths dirs : List String) :
    xdgIconThemePathsLoop tk env paths dirs =
      paths ++ (dirs.filter (fun dir => env.isDir (dir ++ "/icons"))).map
        (fun dir => tk.absoluteFilePath (dir ++ "/icons")) := by
  induction dirs generalizing paths with
  | nil => simp [xdgIconThemePathsLoop]
  | cons dir rest ih =>
    unfold xdgIconThemePathsLoop
    by_cases hdir : env.isDir (dir ++ "/icons") = true
    · simp [hdir, ih]
    · simp [hdir, ih]

/-- The split of the built-in default. -/
theorem split_default :
    split "/usr/local/share/:/usr/share/" ':' = ["/usr/local/share/", "/usr/share/"] := by
  decide

/-- C6: let `dirs` be the entries of `XDG_DATA_DIRS`: `/usr/local/share/` then `/usr/share/`
when the variable is unset or empty, and otherwise the strings without colon whose
colon-separated list is the value of the variable. Such a list exists, and for each such list
`xdgIconThemePaths` returns the absolute path of `<home>/.icons` if that is a directory,
followed, in the order of `dirs`, by the absolute path of `<dir>/icons` for exactly those
entries for which it is a directory. -/
theorem xdgIconThemePaths_spec (tk : Toolkit) (env : Env) :
    (∃ dirs : List String,
      if env.xdgDataDirs.getD "" = "" then dirs = ["/usr/local/share/", "/usr/share/"]
      else joinColon dirs = env.xdgDataDirs.getD "" ∧ ∀ dir ∈ dirs, ':' ∉ dir.toList) ∧
    ∀ dirs : List String,
      (if env.xdgDataDirs.getD "" = "" then dirs = ["/usr/local/share/", "/usr/share/"]
       else joinColon dirs = env.xdgDataDirs.getD "" ∧ ∀ dir ∈ dirs, ':' ∉ dir.toList) →
      xdgIconThemePaths tk env =
        (if env.isDir (env.homePath ++ "/.icons") = true then
          [tk.absoluteFilePath (env.homePath ++ "/.icons")]
        else [])
        ++ (dirs.filter (fun dir => env.isDir (dir ++ "/icons"))).map
          (fun dir => tk.absoluteFilePath (dir ++ "/icons")) := by
  constructor
  · by_cases hx : env.xdgDataDirs.getD "" = ""
    · exact ⟨_, by rw [if_pos hx]⟩
    · exact ⟨split (env.xdgDataDirs.getD "") ':', by
        rw [if_neg hx]
        exact ⟨joinColon_split _, split_no_colon _⟩⟩
  · intro dirs hdirs
    unfold xdgIconThemePaths
    simp only [xdgIconThemePathsLoop_eq]
    by_cases hx : env.xdgDataDirs.getD "" = ""
    · rw [if_pos hx] at hdirs
      rw [if_pos hx, split_default, hdirs]
    · rw [if_neg hx] at hdirs
      rw [if_neg hx]
      have hsplit : split (env.xdgDataDirs.getD "") ':' = dirs := by
        rw [← hdirs.1]
        exact split_joinColon dirs (by rw [hdirs.1]; exact hx) hdirs.2
      rw [hsplit]

/-- C6, on inputs: with `XDG_DATA_DIRS` unset and `/home/user/.icons` and `/usr/share/icons`
the only directories, and with `XDG_DATA_DIRS=/opt/share:/usr/share`, no `/home/user/.icons`
and both icons directories present. -/
theorem xdgIconThemePaths_spec_witness :
    xdgIconThemePaths sampleToolkit emptyEnv = ["/home/user/.icons", "/usr/share/icons"] ∧
      xdgIconThemePaths sampleToolkit sampleEnv = ["/opt/share/icons", "/usr/share/icons"] :=
  ⟨((xdgIconThemePaths_spec sampleToolkit emptyEnv).2 ["/usr/local/share/", "/usr/share/"]
      (by decide)).trans (by decide),
    ((xdgIconThemePaths_spec sampleToolkit sampleEnv).2 ["/opt/share", "/usr/share"]
      (by decide)).trans (by decide)⟩


end LXQt
